import Mathlib

/-!
Verification development for the GRVT/Aster cross-exchange arbitrage engine
(`strategy_grvt`).  Decimal arithmetic of the source is embedded as exact
rational arithmetic (`ℚ`); float statistics are embedded as exact rationals
with the standard deviation taken in `ℝ`.  Each definition is a shallow
embedding of the Python function it is named after.
-/

/-- Python truthiness of an optional price: `None` and `Decimal('0')` are
falsy, every non-zero value is truthy.  Used wherever the source writes
`if not price` on a best-bid/ask slot. -/
def pyTruthy : Option ℚ → Bool
  | none => false
  | some x => decide (x ≠ 0)

/-- Outcome of one raw `get_real_position()` call on an exchange client, as
seen by its awaiting caller: a value, a raised `Exception`, or a hang that
outlasts the caller's `asyncio.wait_for` window. -/
inductive ClientQuery where
  | ok (v : ℚ)
  | raises
  | hangs
  deriving DecidableEq, Repr

/-- Embeds `PositionTracker.get_grvt_position` (position_tracker.py lines 22-32):
returns the client's value; catches any `Exception`, logs a warning and
returns `Decimal('0')`.  The result pairs the returned quantity with the
warning flag; `none` means the call never returned (the hang is cancelled by
the caller's 3-second `wait_for`, whose `CancelledError` is not an
`Exception` and escapes this handler). -/
def get_grvt_position : ClientQuery → Option (ℚ × Bool)
  | .ok v => some (v, false)
  | .raises => some (0, true)
  | .hangs => none

/-- Embeds `PositionTracker.get_aster_position` (position_tracker.py lines 34-44):
identical handling on the Aster client. -/
def get_aster_position : ClientQuery → Option (ℚ × Bool)
  | .ok v => some (v, false)
  | .raises => some (0, true)
  | .hangs => none

/-- The timeout passed to `asyncio.wait_for` around each position query in
`GrvtArb._update_positions` (grvt_arb.py lines 808-817). -/
def position_query_timeout : ℚ := 3

/-- Embeds `GrvtArb._update_positions` (grvt_arb.py lines 801-828): queries GRVT
then Aster, each under a 3-second `wait_for`; a `TimeoutError` or any other
escaping exception makes it return `False` (embedded as `none`), otherwise it
stores both positions and returns `True` (embedded as `some`). -/
def update_positions (g a : ClientQuery) : Option (ℚ × ℚ) :=
  match get_grvt_position g with
  | none => none
  | some (gv, _) =>
    match get_aster_position a with
    | none => none
    | some (av, _) => some (gv, av)

/-- Trace semantics of `GrvtArb._update_positions`, run against streams of would-be client
responses, recording how many raw queries it issues to each venue.  The
source awaits each client exactly once, so only the head of each stream can
be consumed; on a GRVT timeout the Aster client is never queried. -/
def update_positions_queries (gs as_ : List ClientQuery) :
    Option (ℚ × ℚ) × ℕ × ℕ :=
  match gs with
  | [] => (none, 0, 0)
  | g :: _ =>
    match get_grvt_position g with
    | none => (none, 1, 0)
    | some (gv, _) =>
      match as_ with
      | [] => (none, 1, 0)
      | a :: _ =>
        match get_aster_position a with
        | none => (none, 1, 1)
        | some (av, _) => (some (gv, av), 1, 1)

/-- The action `GrvtArb._execute_long_trade` / `_execute_short_trade` takes
before any order is placed. -/
inductive TradeStartAction where
  | ret
  | emergencyStop (alertPriority : ℕ) (exitCode : ℕ)
  | placeMaker (side : String) (qty : ℚ)
  deriving DecidableEq, Repr

/-- Embeds `PositionTracker.get_net_position` (position_tracker.py lines 62-64). -/
def get_net_position (grvt_position aster_position : ℚ) : ℚ :=
  grvt_position + aster_position

/-- Head of `GrvtArb._execute_long_trade` (grvt_arb.py lines 830-863): return
at once under the stop flag; if `|net| > order_quantity * 2`, send a
priority-2 Pushover alert and `sys.exit(1)`; otherwise place the GRVT
post-only buy for `order_quantity`. -/
def execute_long_trade_start (stop_flag : Bool)
    (grvt_position aster_position order_quantity : ℚ) : TradeStartAction :=
  if stop_flag then .ret
  else if order_quantity * 2 < |get_net_position grvt_position aster_position| then
    .emergencyStop 2 1
  else .placeMaker "buy" order_quantity

/-- Head of `GrvtArb._execute_short_trade` (grvt_arb.py lines 889-922): same
safety gate, then the GRVT post-only sell. -/
def execute_short_trade_start (stop_flag : Bool)
    (grvt_position aster_position order_quantity : ℚ) : TradeStartAction :=
  if stop_flag then .ret
  else if order_quantity * 2 < |get_net_position grvt_position aster_position| then
    .emergencyStop 2 1
  else .placeMaker "sell" order_quantity

/-- The hedge instruction `OrderManager.handle_grvt_order_update` stores for
the taker leg (`current_aster_side/quantity/price`). -/
structure HedgeInstruction where
  side : String
  quantity : ℚ
  price : ℚ
  deriving DecidableEq, Repr

/-- Embeds `OrderManager.handle_grvt_order_update` (order_manager.py lines 145-159):
the taker side is the opposite of the maker side, the taker quantity is the
maker `filled_size`, and `waiting_for_aster_fill` is raised. -/
def om_handle_grvt_order_update (side : String) (filled_size : ℚ)
    (price : ℚ) : HedgeInstruction :=
  { side := if side = "buy" then "sell" else "buy"
    quantity := filled_size
    price := price }

/-- A GRVT order-update message as consumed by
`GrvtArb._handle_grvt_order_update`. -/
structure GrvtOrderUpdate where
  contract_id : String
  order_id : String
  status : String
  side : String
  filled_size : ℚ
  size : ℚ
  price : ℚ
  deriving DecidableEq, Repr

/-- Embeds `GrvtArb._handle_grvt_order_update` (grvt_arb.py lines 387-453),
projected onto the hedge it triggers: messages for other contracts are
dropped; a `CANCELED` report with `filled_size > 0` is reclassified as
`FILLED`; a `FILLED` report with `filled_size > 0` hands
`(side, filled_size, price)` to `OrderManager.handle_grvt_order_update`;
everything else triggers no hedge. -/
def arb_handle_grvt_order_update (self_contract_id : String)
    (o : GrvtOrderUpdate) : Option HedgeInstruction :=
  if o.contract_id ≠ self_contract_id then none
  else
    let side := o.side.toLower
    let status := if o.status = "CANCELED" ∧ 0 < o.filled_size then "FILLED" else o.status
    if status = "FILLED" ∧ 0 < o.filled_size then
      some (om_handle_grvt_order_update side o.filled_size o.price)
    else none

/-- The slots of `OrderBookManager` sampled by the trading loop together
with the two ready flags. -/
structure BboState where
  grvt_best_bid : Option ℚ
  grvt_best_ask : Option ℚ
  aster_best_bid : Option ℚ
  aster_best_ask : Option ℚ
  grvt_ready : Bool
  aster_ready : Bool
  deriving DecidableEq, Repr

/-- The gate of one iteration of `GrvtArb.trading_loop` (grvt_arb.py lines
717-729): the iteration goes on to signal evaluation only when all four
best-bid/ask slots are truthy (`if not grvt_best_bid or not grvt_best_ask:
... continue`, then the same for Aster).  The ready flags are not read. -/
def loop_proceeds (s : BboState) : Bool :=
  pyTruthy s.grvt_best_bid && pyTruthy s.grvt_best_ask &&
  pyTruthy s.aster_best_bid && pyTruthy s.aster_best_ask

/-- Value of a truthy slot (`Option.getD 0`; the default is never reached
under `pyTruthy`). -/
def optVal (o : Option ℚ) : ℚ := o.getD 0

/-- The condition of `if (aster_best_bid and grvt_best_bid and
aster_best_bid - grvt_best_bid > self.long_grvt_threshold)` (grvt_arb.py
lines 744-745). -/
def long_cond (s : BboState) (long_threshold : ℚ) : Bool :=
  pyTruthy s.aster_best_bid && pyTruthy s.grvt_best_bid &&
  decide (long_threshold < optVal s.aster_best_bid - optVal s.grvt_best_bid)

/-- The condition of the `elif` arm `grvt_best_ask and aster_best_ask and
grvt_best_ask - aster_best_ask > self.short_grvt_threshold` (grvt_arb.py
lines 752-753). -/
def short_cond (s : BboState) (short_threshold : ℚ) : Bool :=
  pyTruthy s.grvt_best_ask && pyTruthy s.aster_best_ask &&
  decide (short_threshold < optVal s.grvt_best_ask - optVal s.aster_best_ask)

/-- Value of `long_grvt` at the end of one iteration of the loop body: the iteration
was not skipped by the BBO gate and the long condition held. -/
def loop_long_signal (s : BboState) (long_threshold : ℚ) : Bool :=
  loop_proceeds s && long_cond s long_threshold

/-- Value of `short_grvt` at the end of one iteration: the gate passed, the long arm
did not fire (`elif`), and the short condition held. -/
def loop_short_signal (s : BboState) (long_threshold short_threshold : ℚ) : Bool :=
  loop_proceeds s && !long_cond s long_threshold && short_cond s short_threshold

/-- Effect of `WebSocketManagerWrapper._monitor_grvt_connection` on a heartbeat
timeout (websocket_manager.py lines 173-186): it only writes
`order_book_manager.grvt_order_book_ready = False`; the cached book and the
best-bid/ask slots are left untouched. -/
def monitor_declare_stale (s : BboState) : BboState :=
  { s with grvt_ready := false }

/-- GRVT side of `OrderBookManager`: incremental book, cached BBO, ready
flag. Price-level maps are embedded as duplicate-free association lists. -/
structure GrvtBookState where
  bids : List (ℚ × ℚ)
  asks : List (ℚ × ℚ)
  best_bid : Option ℚ
  best_ask : Option ℚ
  ready : Bool
  deriving DecidableEq, Repr

/-- Dict write `book[price] = size` on a price-level dict. -/
def book_insert (m : List (ℚ × ℚ)) (p s : ℚ) : List (ℚ × ℚ) :=
  (p, s) :: m.filter (fun e => e.1 ≠ p)

/-- Dict removal `book.pop(price, None)` on a price-level dict. -/
def book_remove (m : List (ℚ × ℚ)) (p : ℚ) : List (ℚ × ℚ) :=
  m.filter (fun e => e.1 ≠ p)

/-- One delta level: `size > 0` upserts the level, `size = 0` (or negative)
removes it (order_book_manager.py lines 36-53). -/
def apply_level (m : List (ℚ × ℚ)) (lv : ℚ × ℚ) : List (ℚ × ℚ) :=
  if 0 < lv.2 then book_insert m lv.1 lv.2 else book_remove m lv.1

/-- Computes `max(book.keys())` as an `Option` (empty dict ⇒ `None`). -/
def keys_max (m : List (ℚ × ℚ)) : Option ℚ :=
  m.foldl (fun acc e =>
    match acc with
    | none => some e.1
    | some q => some (max q e.1)) none

/-- Computes `min(book.keys())` as an `Option` (empty dict ⇒ `None`). -/
def keys_min (m : List (ℚ × ℚ)) : Option ℚ :=
  m.foldl (fun acc e =>
    match acc with
    | none => some e.1
    | some q => some (min q e.1)) none

/-- Embeds `OrderBookManager.update_grvt_order_book` (order_book_manager.py lines
29-72): apply all bid and ask deltas, recompute the BBO, and set the ready
flag — the source sets it on the first update unconditionally, whether or
not either side is empty. -/
def update_grvt_order_book (b : GrvtBookState) (bids asks : List (ℚ × ℚ)) :
    GrvtBookState :=
  let bids' := bids.foldl apply_level b.bids
  let asks' := asks.foldl apply_level b.asks
  { bids := bids'
    asks := asks'
    best_bid := keys_max bids'
    best_ask := keys_min asks'
    ready := true }

/-- The monitor's reset of the GRVT ready flag on the book state
(websocket_manager.py line 181). -/
def monitor_mark_grvt_not_ready (b : GrvtBookState) : GrvtBookState :=
  { b with ready := false }

/-- Aster side of `OrderBookManager`. -/
structure AsterBookState where
  bids : List (ℚ × ℚ)
  asks : List (ℚ × ℚ)
  best_bid : Option ℚ
  best_ask : Option ℚ
  ready : Bool
  deriving DecidableEq, Repr

/-- Embeds `OrderBookManager.update_aster_bbo` (order_book_manager.py lines
161-176): recompute the BBO from the book and set the ready flag only when
it was unset and both new best prices are truthy. -/
def update_aster_bbo (b : AsterBookState) : AsterBookState :=
  let bb := keys_max b.bids
  let ba := keys_min b.asks
  { b with
    best_bid := bb
    best_ask := ba
    ready := b.ready || (pyTruthy bb && pyTruthy ba) }

/-- Embeds `OrderBookManager.update_aster_order_book` (order_book_manager.py lines
87-127): apply the levels, then `update_aster_bbo`. -/
def update_aster_order_book (b : AsterBookState) (bids asks : List (ℚ × ℚ)) :
    AsterBookState :=
  update_aster_bbo
    { b with
      bids := bids.foldl apply_level b.bids
      asks := asks.foldl apply_level b.asks }

/-- Initial GRVT book state (`OrderBookManager.__init__`). -/
def init_grvt_book : GrvtBookState :=
  { bids := [], asks := [], best_bid := none, best_ask := none, ready := false }

/-- Initial Aster book state (`OrderBookManager.__init__`). -/
def init_aster_book : AsterBookState :=
  { bids := [], asks := [], best_bid := none, best_ask := none, ready := false }

/-- Constant `self.spread_window_size = 100` (grvt_arb.py line 58). -/
def spread_window_size : ℕ := 100

/-- Constant `self.min_samples_for_dynamic = 50` (grvt_arb.py line 66). -/
def min_samples_for_dynamic : ℕ := 50

/-- Append a sample and, when the window overflows `spread_window_size`,
`pop(0)` the oldest element (grvt_arb.py lines 163-166 and 170-173). -/
def push_window (hist : List ℚ) (x : ℚ) : List ℚ :=
  let h := hist ++ [x]
  if spread_window_size < h.length then h.drop 1 else h

/-- The two spread histories of `GrvtArb`. -/
structure SpreadState where
  long_spread_history : List ℚ
  short_spread_history : List ℚ
  deriving DecidableEq, Repr

/-- Initial state from `GrvtArb.__init__`: both histories start empty. -/
def init_spread_state : SpreadState :=
  { long_spread_history := [], short_spread_history := [] }

/-- Long-window block of `GrvtArb.update_spread_statistics` (grvt_arb.py
lines 161-166): record the sample only when present and strictly
positive. -/
def record_long_spread (s : SpreadState) : Option ℚ → SpreadState
  | some x =>
    if 0 < x then { s with long_spread_history := push_window s.long_spread_history x }
    else s
  | none => s

/-- Short-window block of `GrvtArb.update_spread_statistics` (grvt_arb.py
lines 168-173). -/
def record_short_spread (s : SpreadState) : Option ℚ → SpreadState
  | some x =>
    if 0 < x then { s with short_spread_history := push_window s.short_spread_history x }
    else s
  | none => s

/-- Embeds `GrvtArb.update_spread_statistics` (grvt_arb.py lines 151-173): each
argument is recorded in its window only when present and strictly positive;
an absent or non-positive argument leaves that window unchanged. -/
def update_spread_statistics (s : SpreadState)
    (long_spread short_spread : Option ℚ) : SpreadState :=
  record_short_spread (record_long_spread s long_spread) short_spread

/-- The `'moving_average'` field of `GrvtArb.get_spread_statistics`
(grvt_arb.py lines 190-215): `0.0` for an empty history, else the mean of
all samples (the default `window=None` covers the whole history). -/
def moving_average (l : List ℚ) : ℚ :=
  if l.isEmpty then 0 else l.sum / l.length

/-- The population variance `sum((x - mean)^2) / len` computed at
grvt_arb.py line 219 (0 for an empty history). -/
def population_variance (l : List ℚ) : ℚ :=
  if l.isEmpty then 0
  else (l.map (fun x => (x - moving_average l) ^ 2)).sum / l.length

/-- The `'rolling_std'` field of `GrvtArb.get_spread_statistics`
(grvt_arb.py lines 217-222): `sqrt` of the population variance when the
history holds at least two samples, `0.0` otherwise. -/
noncomputable def rolling_std (l : List ℚ) : ℝ :=
  if 2 ≤ l.length then Real.sqrt (population_variance l) else 0

/-- Embeds `GrvtArb.calculate_dynamic_threshold` (grvt_arb.py lines 232-256) with
the configured `z_score_multiplier` `k`: below `min_samples_for_dynamic`
samples return the configured minimum; otherwise
`max(min_threshold, mean + k * std, 0.1)`. -/
noncomputable def calculate_dynamic_threshold (k : ℝ) (spread_history : List ℚ)
    (min_threshold : ℝ) : ℝ :=
  if spread_history.length < min_samples_for_dynamic then min_threshold
  else
    max min_threshold
      (max ((moving_average spread_history : ℝ) + k * rolling_std spread_history)
        (1 / 10))

/-- Population mean of a sample list, as the claims state it. -/
def population_mean_spec (l : List ℚ) : ℚ := l.sum / l.length

/-- Population standard deviation of a sample list, as the claims state
it. -/
noncomputable def population_std_spec (l : List ℚ) : ℝ :=
  Real.sqrt (population_variance l)

/-- The C6 window invariant: every recorded sample in either spread history
is strictly positive and neither history exceeds `spread_window_size`. -/
def spread_inv (s : SpreadState) : Prop :=
  (∀ x ∈ s.long_spread_history, 0 < x) ∧
  (∀ x ∈ s.short_spread_history, 0 < x) ∧
  s.long_spread_history.length ≤ spread_window_size ∧
  s.short_spread_history.length ≤ spread_window_size

/-! ## Theorems -/

/-- Elements of a pushed window come from the old window or are the new
sample. -/
theorem push_window_mem {hist : List ℚ} {x y : ℚ}
    (hy : y ∈ push_window hist x) : y ∈ hist ∨ y = x := by
  simp only [push_window] at hy
  have hmem : y ∈ hist ++ [x] := by
    split at hy
    · exact List.drop_subset 1 (hist ++ [x]) hy
    · exact hy
  rcases List.mem_append.mp hmem with h | h
  · exact Or.inl h
  · exact Or.inr (List.mem_singleton.mp h)

/-- A pushed window never exceeds the capacity when the old one did not. -/
theorem push_window_length {hist : List ℚ} (hlen : hist.length ≤ spread_window_size)
    (x : ℚ) : (push_window hist x).length ≤ spread_window_size := by
  have h100 : spread_window_size = 100 := rfl
  rw [h100] at hlen ⊢
  simp only [push_window, h100]
  split <;> rename_i h <;>
    simp only [List.length_drop, List.length_append, List.length_singleton] at h ⊢ <;>
    omega

/-- Recording a long sample preserves the window invariant. -/
theorem spread_inv_record_long {s : SpreadState} (h : spread_inv s)
    (long_spread : Option ℚ) : spread_inv (record_long_spread s long_spread) := by
  obtain ⟨hlp, hsp, hll, hsl⟩ := h
  cases long_spread with
  | none => exact ⟨hlp, hsp, hll, hsl⟩
  | some x =>
    by_cases hx : 0 < x
    · refine ⟨?_, ?_, ?_, ?_⟩ <;> simp only [record_long_spread, if_pos hx]
      · intro y hy
        rcases push_window_mem hy with h | h
        · exact hlp y h
        · exact h ▸ hx
      · exact hsp
      · exact push_window_length hll x
      · exact hsl
    · simpa [record_long_spread, hx] using
        (⟨hlp, hsp, hll, hsl⟩ : spread_inv s)

/-- Recording a short sample preserves the window invariant. -/
theorem spread_inv_record_short {s : SpreadState} (h : spread_inv s)
    (short_spread : Option ℚ) : spread_inv (record_short_spread s short_spread) := by
  obtain ⟨hlp, hsp, hll, hsl⟩ := h
  cases short_spread with
  | none => exact ⟨hlp, hsp, hll, hsl⟩
  | some x =>
    by_cases hx : 0 < x
    · refine ⟨?_, ?_, ?_, ?_⟩ <;> simp only [record_short_spread, if_pos hx]
      · exact hlp
      · intro y hy
        rcases push_window_mem hy with h | h
        · exact hsp y h
        · exact h ▸ hx
      · exact hll
      · exact push_window_length hsl x
    · simpa [record_short_spread, hx] using
        (⟨hlp, hsp, hll, hsl⟩ : spread_inv s)

/-- One `update_spread_statistics` step preserves the window invariant. -/
theorem spread_inv_update {s : SpreadState} (h : spread_inv s)
    (long_spread short_spread : Option ℚ) :
    spread_inv (update_spread_statistics s long_spread short_spread) :=
  spread_inv_record_short (spread_inv_record_long h long_spread) short_spread

/-- The window invariant holds after folding any update sequence over an
invariant-satisfying state. -/
theorem spread_inv_foldl (updates : List (Option ℚ × Option ℚ)) :
    ∀ (s : SpreadState), spread_inv s →
      spread_inv (updates.foldl
        (fun t u => update_spread_statistics t u.1 u.2) s) := by
  induction updates with
  | nil => intro s hs; exact hs
  | cons u us ih =>
    intro s hs
    exact ih _ (spread_inv_update hs u.1 u.2)

/-- C10: whenever the underlying client query raises an exception, both
`PositionTracker.get_grvt_position` and `PositionTracker.get_aster_position`
catch it, log a warning, and return `Decimal('0')`; the returned value is
indistinguishable from an authoritative flat (zero) position. -/
theorem position_query_error_returns_zero :
    get_grvt_position .raises = some (0, true) ∧
    get_aster_position .raises = some (0, true) ∧
    (get_grvt_position .raises).map Prod.fst = (get_grvt_position (.ok 0)).map Prod.fst ∧
    (get_aster_position .raises).map Prod.fst = (get_aster_position (.ok 0)).map Prod.fst :=
  ⟨rfl, rfl, rfl, rfl⟩

/-- C1: in both `_execute_long_trade` and `_execute_short_trade`, when the
stop flag is down and the re-queried net position satisfies
`|net| > 2 · order_quantity`, the executor sends a priority-2 alert and
exits with code 1 (non-zero) instead of placing a maker order; conversely a
maker order is placed only when `|net| ≤ 2 · order_quantity` held at the
check. -/
theorem safety_stop_guards_maker_order :
    ∀ (stop_flag : Bool) (g a q : ℚ),
      (stop_flag = false → q * 2 < |get_net_position g a| →
        execute_long_trade_start stop_flag g a q = .emergencyStop 2 1 ∧
        execute_short_trade_start stop_flag g a q = .emergencyStop 2 1) ∧
      (∀ side qty, execute_long_trade_start stop_flag g a q = .placeMaker side qty →
        |get_net_position g a| ≤ q * 2) ∧
      (∀ side qty, execute_short_trade_start stop_flag g a q = .placeMaker side qty →
        |get_net_position g a| ≤ q * 2) := by
  intro stop_flag g a q
  refine ⟨?_, ?_, ?_⟩
  · intro hs hnet
    subst hs
    simp [execute_long_trade_start, execute_short_trade_start, hnet]
  · intro side qty h
    by_contra hlt
    push_neg at hlt
    cases stop_flag <;>
      simp [execute_long_trade_start, hlt] at h
  · intro side qty h
    by_contra hlt
    push_neg at hlt
    cases stop_flag <;>
      simp [execute_short_trade_start, hlt] at h

/-- Witness for C1 at the spec's safety-stop example: maker +0.10, taker
−0.06, order quantity 0.004. -/
theorem safety_stop_guards_maker_order_witness :
    execute_long_trade_start false (1/10) (-6/100) (4/1000) = .emergencyStop 2 1 ∧
    execute_short_trade_start false (1/10) (-6/100) (4/1000) = .emergencyStop 2 1 :=
  (safety_stop_guards_maker_order false (1/10) (-6/100) (4/1000)).1 rfl
    (by rw [get_net_position]; rw [abs_of_pos (by norm_num)]; norm_num)

/-- C2: whenever `_handle_grvt_order_update` triggers a hedge — in
particular for a `CANCELED` report with `filled_size > 0`, which is
reclassified as `FILLED` — the taker instruction carries quantity exactly
the maker leg's `filled_size` (independent of the original order `size`)
and the side opposite to the maker side. -/
theorem hedge_matches_filled_size :
    ∀ (c : String) (o : GrvtOrderUpdate),
      (∀ h, arb_handle_grvt_order_update c o = some h →
        h.quantity = o.filled_size ∧
        (o.side.toLower = "buy" → h.side = "sell") ∧
        (o.side.toLower = "sell" → h.side = "buy")) ∧
      (o.contract_id = c → o.status = "CANCELED" → 0 < o.filled_size →
        arb_handle_grvt_order_update c o =
          some (om_handle_grvt_order_update o.side.toLower o.filled_size o.price)) ∧
      (∀ sz, arb_handle_grvt_order_update c { o with size := sz } =
        arb_handle_grvt_order_update c o) := by
  intro c o
  refine ⟨?_, ?_, ?_⟩
  · intro h heq
    by_cases hc : o.contract_id = c
    · by_cases hf : 0 < o.filled_size
      · by_cases hcan : o.status = "CANCELED"
        · simp [arb_handle_grvt_order_update, hc, hf, hcan,
            om_handle_grvt_order_update] at heq
          subst heq
          refine ⟨rfl, ?_, ?_⟩ <;> intro hside <;> simp [hside]
        · by_cases hfil : o.status = "FILLED"
          · simp [arb_handle_grvt_order_update, hc, hf, hcan, hfil,
              om_handle_grvt_order_update] at heq
            subst heq
            refine ⟨rfl, ?_, ?_⟩ <;> intro hside <;> simp [hside]
          · simp [arb_handle_grvt_order_update, hc, hf, hcan, hfil] at heq
      · simp [arb_handle_grvt_order_update, hc, hf] at heq
    · simp [arb_handle_grvt_order_update, hc] at heq
  · intro hc hcan hf
    simp [arb_handle_grvt_order_update, hc, hcan, hf]
  · intro sz
    simp [arb_handle_grvt_order_update]

/-- Witness for C2: a `CANCELED` buy report, filled 0.0015 of 0.004, hedges
as a sell of exactly 0.0015. -/
theorem hedge_matches_filled_size_witness :
    arb_handle_grvt_order_update "BTC_USDT_Perp"
        ⟨"BTC_USDT_Perp", "o1", "CANCELED", "buy", 15/10000, 4/1000, 50002⟩ =
      some (om_handle_grvt_order_update (("buy" : String).toLower)
        (15/10000) 50002) :=
  (hedge_matches_filled_size "BTC_USDT_Perp"
      ⟨"BTC_USDT_Perp", "o1", "CANCELED", "buy", 15/10000, 4/1000, 50002⟩).2.1
    rfl rfl (by norm_num)

/-- C9 counterexample: the positions re-query is not retried.  With a GRVT
client that raises on the first query and would succeed on a second, the
code consumes only the first response, swallows the error into position 0,
and proceeds with the trade attempt (it neither retries nor aborts);
with a GRVT query hanging past the 3-second timeout the attempt is aborted
after that single query, again without a retry. -/
theorem position_requery_no_retry_counterexample :
    update_positions_queries [.raises, .raises] [.ok 3] = (some (0, 3), 1, 1) ∧
    update_positions_queries [.hangs, .ok 5] [.ok 3] = (none, 1, 0) :=
  ⟨rfl, rfl⟩

/-- C9 amended: each positions re-query issues exactly one raw query per
venue under a 3-second timeout, with no retry; a timeout on either venue
aborts the current trade attempt (`False`, so the loop `continue`s), while
an exception is swallowed by the tracker into position 0 and the attempt
proceeds. -/
theorem position_requery_single_attempt :
    ∀ (g a : ClientQuery) (v w : ℚ) (gs as_ : List ClientQuery),
      update_positions .hangs a = none ∧
      update_positions (.ok v) .hangs = none ∧
      update_positions .raises .hangs = none ∧
      update_positions .raises (.ok w) = some (0, w) ∧
      update_positions (.ok v) (.ok w) = some (v, w) ∧
      (update_positions_queries (g :: gs) (a :: as_)).2.1 = 1 ∧
      position_query_timeout = 3 := by
  intro g a v w gs as_
  refine ⟨rfl, rfl, rfl, rfl, rfl, ?_, rfl⟩
  cases g <;> cases a <;> rfl

/-- C3 counterexample: after the heartbeat monitor declares the GRVT stream
stale (ready flag cleared, cached BBO left in place), the long signal still
fires in the very next iteration. -/
theorem stale_book_still_fires_signal :
    (monitor_declare_stale
        ⟨some 110, some 111, some 120, some 121, true, true⟩).grvt_ready = false ∧
    loop_long_signal
        (monitor_declare_stale
          ⟨some 110, some 111, some 120, some 121, true, true⟩) 5 = true := by
  refine ⟨rfl, ?_⟩
  simp [monitor_declare_stale, loop_long_signal, loop_proceeds, long_cond,
    pyTruthy, optVal]
  norm_num

/-- C3 amended: the trading loop gates an iteration only on the four cached
best-bid/ask slots being present and non-zero; the ready flags are never
consulted, so flipping them changes no signal.  While any BBO slot is falsy
no signal fires, but the monitor's stale declaration only clears the GRVT
ready flag and leaves the cached BBO (and hence the signals) unchanged. -/
theorem signals_gated_by_bbo_not_ready_flag :
    ∀ (s : BboState) (tl ts : ℚ) (b1 b2 : Bool),
      (loop_long_signal { s with grvt_ready := b1, aster_ready := b2 } tl =
        loop_long_signal s tl) ∧
      (loop_short_signal { s with grvt_ready := b1, aster_ready := b2 } tl ts =
        loop_short_signal s tl ts) ∧
      (loop_proceeds s = false →
        loop_long_signal s tl = false ∧ loop_short_signal s tl ts = false) ∧
      (monitor_declare_stale s).grvt_best_bid = s.grvt_best_bid ∧
      (monitor_declare_stale s).grvt_best_ask = s.grvt_best_ask ∧
      (loop_long_signal (monitor_declare_stale s) tl = loop_long_signal s tl) ∧
      (loop_short_signal (monitor_declare_stale s) tl ts =
        loop_short_signal s tl ts) := by
  intro s tl ts b1 b2
  refine ⟨rfl, rfl, ?_, rfl, rfl, rfl, rfl⟩
  intro hgate
  simp [loop_long_signal, loop_short_signal, hgate]

/-- Witness for C3 amended at a state whose GRVT best bid is missing: the
gate fails and neither signal fires. -/
theorem signals_gated_by_bbo_witness :
    loop_long_signal ⟨none, some 111, some 120, some 121, false, true⟩ 5 = false ∧
    loop_short_signal ⟨none, some 111, some 120, some 121, false, true⟩ 5 7 = false :=
  (signals_gated_by_bbo_not_ready_flag
      ⟨none, some 111, some 120, some 121, false, true⟩ 5 7 false false).2.2.1 rfl

/-- C4 counterexample: with GRVT book (100, 140), Aster book (120, 121) and
both thresholds 10, the short spread `140 − 121 = 19` strictly exceeds its
threshold, yet the short signal is false because the long arm of the `elif`
fired first — refuting the claimed biconditional for the short signal. -/
theorem short_spread_exceeds_threshold_without_signal :
    loop_short_signal ⟨some 100, some 140, some 120, some 121, true, true⟩ 10 10
        = false ∧
    ((10 : ℚ) < 140 - 121) ∧
    loop_long_signal ⟨some 100, some 140, some 120, some 121, true, true⟩ 10
        = true := by
  refine ⟨?_, by norm_num, ?_⟩ <;>
    simp [loop_short_signal, loop_long_signal, loop_proceeds, long_cond,
      short_cond, pyTruthy, optVal] <;> norm_num

/-- C4 amended: in an iteration whose four BBO prices are present and
non-zero, the long signal holds exactly when `taker_bid − maker_bid`
strictly exceeds the long threshold; the short signal holds exactly when
the long signal does not and `maker_ask − taker_ask` strictly exceeds the
short threshold (the source's `elif`); hence at most one fires, and a
spread exactly equal to its threshold never fires. -/
theorem loop_signal_characterization :
    ∀ (gb ga ab aa tl ts : ℚ) (r1 r2 : Bool),
      gb ≠ 0 → ga ≠ 0 → ab ≠ 0 → aa ≠ 0 →
      (loop_long_signal ⟨some gb, some ga, some ab, some aa, r1, r2⟩ tl = true ↔
        tl < ab - gb) ∧
      (loop_short_signal ⟨some gb, some ga, some ab, some aa, r1, r2⟩ tl ts = true ↔
        (¬ tl < ab - gb ∧ ts < ga - aa)) ∧
      ¬(loop_long_signal ⟨some gb, some ga, some ab, some aa, r1, r2⟩ tl = true ∧
        loop_short_signal ⟨some gb, some ga, some ab, some aa, r1, r2⟩ tl ts = true) ∧
      (ab - gb = tl →
        loop_long_signal ⟨some gb, some ga, some ab, some aa, r1, r2⟩ tl = false) ∧
      (ga - aa = ts →
        loop_short_signal ⟨some gb, some ga, some ab, some aa, r1, r2⟩ tl ts = false) := by
  intro gb ga ab aa tl ts r1 r2 hgb hga hab haa
  have hl : loop_long_signal ⟨some gb, some ga, some ab, some aa, r1, r2⟩ tl = true ↔
      tl < ab - gb := by
    simp [loop_long_signal, loop_proceeds, long_cond, pyTruthy, optVal,
      hgb, hga, hab, haa]
  have hs : loop_short_signal ⟨some gb, some ga, some ab, some aa, r1, r2⟩ tl ts = true ↔
      (¬ tl < ab - gb ∧ ts < ga - aa) := by
    simp [loop_short_signal, loop_proceeds, long_cond, short_cond, pyTruthy,
      optVal, hgb, hga, hab, haa]
  refine ⟨hl, hs, ?_, ?_, ?_⟩
  · rintro ⟨h1, h2⟩
    exact ((hs.mp h2).1 (hl.mp h1))
  · intro heq
    rw [Bool.eq_false_iff, Ne, hl, heq]
    exact lt_irrefl tl
  · intro heq
    rw [Bool.eq_false_iff, Ne, hs, heq]
    rintro ⟨-, h⟩
    exact lt_irrefl ts h

/-- Witness for C4 amended at the BBO pair (100, 140) / (120, 121) with
both thresholds 10: the long biconditional instantiated and decided. -/
theorem loop_signal_characterization_witness :
    (loop_long_signal ⟨some 100, some 140, some 120, some 121, true, true⟩ 10 = true ↔
      (10 : ℚ) < 120 - 100) :=
  (loop_signal_characterization 100 140 120 121 10 10 true true
    (by norm_num) (by norm_num) (by norm_num) (by norm_num)).1

/-- C6: starting from the empty histories, any sequence of
`update_spread_statistics` calls (with present/absent, positive/zero/
negative arguments) leaves every recorded sample strictly positive and both
windows within capacity 100; and when a window already holds 100 samples, a
newly recorded sample evicts the oldest element first (FIFO), while a
window below capacity is simply appended to. -/
theorem spread_windows_positive_bounded_fifo :
    ∀ (updates : List (Option ℚ × Option ℚ)),
      spread_inv (updates.foldl
        (fun t u => update_spread_statistics t u.1 u.2) init_spread_state) ∧
      (∀ (s : SpreadState) (x : ℚ),
        s.long_spread_history.length = spread_window_size → 0 < x →
        (update_spread_statistics s (some x) none).long_spread_history =
          s.long_spread_history.drop 1 ++ [x]) ∧
      (∀ (s : SpreadState) (x : ℚ),
        s.short_spread_history.length = spread_window_size → 0 < x →
        (update_spread_statistics s none (some x)).short_spread_history =
          s.short_spread_history.drop 1 ++ [x]) ∧
      (∀ (hist : List ℚ) (x : ℚ), hist.length < spread_window_size →
        push_window hist x = hist ++ [x]) := by
  intro updates
  have hfull : ∀ (hist : List ℚ) (x : ℚ), hist.length = spread_window_size →
      push_window hist x = hist.drop 1 ++ [x] := by
    intro hist x hlen
    have h100 : spread_window_size = 100 := rfl
    rw [h100] at hlen
    simp only [push_window, h100, List.length_append, List.length_singleton,
      hlen]
    rw [if_pos (by omega)]
    rw [List.drop_append_of_le_length (by omega)]
  refine ⟨?_, ?_, ?_, ?_⟩
  · refine spread_inv_foldl updates init_spread_state ⟨?_, ?_, ?_, ?_⟩
    · intro y hy
      cases hy
    · intro y hy
      cases hy
    · simp [init_spread_state]
    · simp [init_spread_state]
  · intro s x hlen hx
    simp only [update_spread_statistics, record_long_spread, record_short_spread,
      if_pos hx]
    exact hfull s.long_spread_history x hlen
  · intro s x hlen hx
    simp only [update_spread_statistics, record_long_spread, record_short_spread,
      if_pos hx]
    exact hfull s.short_spread_history x hlen
  · intro hist x hlen
    have h100 : spread_window_size = 100 := rfl
    rw [h100] at hlen
    simp only [push_window, h100, List.length_append, List.length_singleton]
    rw [if_neg (by omega)]

/-- Witness for C6 at a full long window of 100 ones and new sample 2: the
oldest element is evicted. -/
theorem spread_windows_fifo_witness :
    (update_spread_statistics
        ⟨List.replicate 100 (1 : ℚ), []⟩ (some 2) none).long_spread_history =
      (List.replicate 100 (1 : ℚ)).drop 1 ++ [2] :=
  (spread_windows_positive_bounded_fifo []).2.1
    ⟨List.replicate 100 (1 : ℚ), []⟩ 2 (by simp [spread_window_size]) (by norm_num)

/-- C7 counterexample: applying a first GRVT delta that carries only an ask
level sets the ready flag even though the bid side is still empty —
refuting that the flag is set only by an update leaving both sides
non-empty. -/
theorem grvt_ready_set_with_empty_side :
    (update_grvt_order_book init_grvt_book [] [(100, 1)]).ready = true ∧
    (update_grvt_order_book init_grvt_book [] [(100, 1)]).bids = [] ∧
    (update_grvt_order_book init_grvt_book [] [(100, 1)]).best_bid = none :=
  ⟨rfl, rfl, rfl⟩

/-- C7 amended: both ready flags start false; any applied GRVT update sets
the GRVT flag true, regardless of side emptiness; an Aster BBO update sets
the Aster flag true exactly when it was already true or the recomputed best
bid and ask are both present and non-zero (and never clears it); the
heartbeat monitor resets the GRVT flag to false. -/
theorem ready_flag_lifecycle :
    init_grvt_book.ready = false ∧
    init_aster_book.ready = false ∧
    (∀ (b : GrvtBookState) (bids asks : List (ℚ × ℚ)),
      (update_grvt_order_book b bids asks).ready = true) ∧
    (∀ b : AsterBookState,
      ((update_aster_bbo b).ready = true ↔
        (b.ready = true ∨
          (pyTruthy (update_aster_bbo b).best_bid = true ∧
           pyTruthy (update_aster_bbo b).best_ask = true)))) ∧
    (∀ b : AsterBookState, b.ready = true → (update_aster_bbo b).ready = true) ∧
    (∀ b : GrvtBookState, (monitor_mark_grvt_not_ready b).ready = false) := by
  refine ⟨rfl, rfl, fun b bids asks => rfl, ?_, ?_, fun b => rfl⟩
  · intro b
    simp [update_aster_bbo]
  · intro b hb
    simp [update_aster_bbo, hb]

/-- Witness for C7 amended: an already-ready Aster book stays ready through
a BBO recomputation that empties both sides. -/
theorem ready_flag_lifecycle_witness :
    (update_aster_bbo ⟨[], [], none, none, true⟩).ready = true :=
  ready_flag_lifecycle.2.2.2.2.1 ⟨[], [], none, none, true⟩ rfl

/-- C5: for a positive configured floor, the recomputed dynamic threshold
equals the floor whenever the window holds fewer than 50 samples, and
otherwise equals `max(floor, mean + k·σ, 0.1)` with `mean` and `σ` the
population mean and population standard deviation of the window;
consequently it is always at least the floor and strictly positive. -/
theorem dynamic_threshold_formula :
    ∀ (k : ℝ) (hist : List ℚ) (floor : ℝ), 0 < floor →
      (hist.length < min_samples_for_dynamic →
        calculate_dynamic_threshold k hist floor = floor) ∧
      (min_samples_for_dynamic ≤ hist.length →
        calculate_dynamic_threshold k hist floor =
          max floor
            (max ((population_mean_spec hist : ℝ) + k * population_std_spec hist)
              (1 / 10))) ∧
      floor ≤ calculate_dynamic_threshold k hist floor ∧
      0 < calculate_dynamic_threshold k hist floor := by
  intro k hist floor hfloor
  by_cases hlen : hist.length < min_samples_for_dynamic
  · refine ⟨fun _ => ?_, fun h => absurd h (not_le.mpr hlen), ?_, ?_⟩
    · simp [calculate_dynamic_threshold, hlen]
    · simp [calculate_dynamic_threshold, hlen]
    · simp [calculate_dynamic_threshold, hlen, hfloor]
  · have hge : min_samples_for_dynamic ≤ hist.length := not_lt.mp hlen
    have hne : ¬hist.isEmpty := by
      have : (50 : ℕ) ≤ hist.length := hge
      cases hist with
      | nil => simp at this
      | cons a t => simp
    have h2 : 2 ≤ hist.length := le_trans (by norm_num [min_samples_for_dynamic]) hge
    have hmean : moving_average hist = population_mean_spec hist := by
      simp [moving_average, population_mean_spec, hne]
    have hstd : rolling_std hist = population_std_spec hist := by
      simp [rolling_std, population_std_spec, h2]
    have heq : calculate_dynamic_threshold k hist floor =
        max floor
          (max ((population_mean_spec hist : ℝ) + k * population_std_spec hist)
            (1 / 10)) := by
      rw [calculate_dynamic_threshold, if_neg hlen, hmean, hstd]
    refine ⟨fun h => absurd h hlen, fun _ => heq, ?_, ?_⟩
    · rw [heq]
      exact le_max_left _ _
    · rw [heq]
      calc (0 : ℝ) < 1 / 10 := by norm_num
        _ ≤ max ((population_mean_spec hist : ℝ) + k * population_std_spec hist)
              (1 / 10) := le_max_right _ _
        _ ≤ _ := le_max_right _ _

/-- Witness for C5 at a warm window of fifty samples of 5 with floor 3 and
multiplier 1.5. -/
theorem dynamic_threshold_formula_witness :
    (3 : ℝ) ≤ calculate_dynamic_threshold (3 / 2) (List.replicate 50 5) 3 ∧
    (0 : ℝ) < calculate_dynamic_threshold (3 / 2) (List.replicate 50 5) 3 :=
  ⟨(dynamic_threshold_formula (3 / 2) (List.replicate 50 5) 3 (by norm_num)).2.2.1,
   (dynamic_threshold_formula (3 / 2) (List.replicate 50 5) 3 (by norm_num)).2.2.2⟩

/-- C8 counterexample: for the one-sample window `[7]` with floor 5 the
claimed value `max(floor, x, ε) = 7`, but the code's threshold is gated by
`min_samples_for_dynamic = 50` and returns the floor 5. -/
theorem single_sample_threshold_counterexample :
    calculate_dynamic_threshold (3 / 2) [7] 5 = 5 ∧
    calculate_dynamic_threshold (3 / 2) [7] 5 ≠ max 5 (max (7 : ℝ) (1 / 10)) := by
  have h : calculate_dynamic_threshold (3 / 2) [(7 : ℚ)] 5 = 5 := by
    simp [calculate_dynamic_threshold, min_samples_for_dynamic]
  refine ⟨h, ?_⟩
  rw [h]
  have h7 : max (7 : ℝ) (1 / 10) = 7 := max_eq_left (by norm_num)
  rw [h7, max_eq_right (by norm_num)]
  norm_num

/-- C8 amended: for a window of exactly one positive sample `x` the computed
statistics do satisfy `mean = x` and `std = 0`, but the dynamic threshold
equals the configured floor (one sample is below
`min_samples_for_dynamic = 50`), not `max(floor, x, ε)`. -/
theorem single_sample_statistics :
    ∀ (x : ℚ) (k floor : ℝ), 0 < x →
      moving_average [x] = x ∧
      rolling_std [x] = 0 ∧
      calculate_dynamic_threshold k [x] floor = floor := by
  intro x k floor _
  refine ⟨?_, ?_, ?_⟩
  · simp [moving_average]
  · simp [rolling_std]
  · simp [calculate_dynamic_threshold, min_samples_for_dynamic]

/-- Witness for C8 amended at the one-sample window `[7]`, multiplier 1.5
and floor 5. -/
theorem single_sample_statistics_witness :
    moving_average [(7 : ℚ)] = 7 ∧
    rolling_std [(7 : ℚ)] = 0 ∧
    calculate_dynamic_threshold (3 / 2) [(7 : ℚ)] 5 = 5 :=
  single_sample_statistics 7 (3 / 2) 5 (by norm_num)
